import Mathlib

/-!
Shallow embedding of the annotation/export core of `src/pages/index.tsx`
(a browser PDF text editor built on pdf.js for rendering and pdf-lib for
export).  Screen and PDF coordinates are JS numbers, modelled as `ℚ`.
The word "annotation" is shortened to "Annot" in Lean identifiers; every
definition's doc comment names the source symbol it embeds.
-/

namespace PdfEdit

/-- The closed font-size enumeration `'small' | 'medium' | 'large'`
(src/pages/index.tsx line 14). -/
inductive FontSize where
  | small
  | medium
  | large
deriving DecidableEq, Repr

/-- The `Annotation` interface (src/pages/index.tsx lines 8-15):
`id`, zero-based `page`, screen-pixel offsets `x`,`y` from the page
surface's top-left corner, mutable `text`, and a `fontSize` enum. -/
structure Annot where
  id : String
  page : Nat
  x : ℚ
  y : ℚ
  text : String
  fontSize : FontSize
deriving DecidableEq, Repr

/-- A selected file as the handler sees it: its declared MIME `type`
and its raw bytes (`File` in the DOM API). -/
structure FileInfo where
  type : String
  bytes : List Nat
deriving DecidableEq, Repr

/-- The component state of `PDFViewer` (src/pages/index.tsx lines 30-35):
`pdfFile`, `numPages`, the annotation list, the selected-annotation id,
the busy flag and the unsaved-changes flag. -/
structure AppState where
  pdfFile : Option FileInfo
  numPages : Nat
  annots : List Annot
  selectedAnnot : Option String
  loading : Bool
  hasUnsavedChanges : Bool
deriving DecidableEq, Repr

/-- The initial `useState` values (src/pages/index.tsx lines 30-35). -/
def initialState : AppState :=
  { pdfFile := none
    numPages := 0
    annots := []
    selectedAnnot := none
    loading := false
    hasUnsavedChanges := false }

/-- The fixed display scale of the render pipeline:
`page.getViewport({ scale: 1.5 })` (src/pages/index.tsx line 96). -/
def RENDER_SCALE : ℚ := 3 / 2

/-- Height of the rendered pixel surface for a page whose PDF-unit height
is `pdfHeight`: pdf.js reports `viewport.height = scale * pageHeight`, and
`canvas.height` is set to exactly that (src/pages/index.tsx lines 96-101). -/
def viewportHeight (pdfHeight : ℚ) : ℚ := RENDER_SCALE * pdfHeight

/-- Outcome of one `loadPdf` run, i.e. where the external pdf.js
collaborator succeeds or fails: the `FileReader` erroring, `getDocument`
rejecting, a per-page `getPage`/`render` rejecting (after `setNumPages`
already ran), or full success.  `numPages` is the page count the decoder
reported. -/
inductive LoadOutcome where
  | readError
  | decodeError
  | renderError (numPages : Nat)
  | success (numPages : Nat)
deriving DecidableEq, Repr

/-- Whether the outcome takes the `catch` branch of `loadPdf`. -/
def LoadOutcome.isFailure : LoadOutcome → Bool
  | .readError => true
  | .decodeError => true
  | .renderError _ => true
  | .success _ => false

/-- Embeds `loadPdf` (src/pages/index.tsx lines 82-124) as a state transition.
On success it sets `numPages` to the decoded count.  `setNumPages` runs
before the per-page render loop, so a render failure still leaves the new
count in place; every failure path runs the `catch` handler, which alerts
and does `setPdfFile(null)` and nothing else. -/
def loadPdf (s : AppState) (outcome : LoadOutcome) : AppState :=
  match outcome with
  | .readError => { s with pdfFile := none }
  | .decodeError => { s with pdfFile := none }
  | .renderError n => { s with numPages := n, pdfFile := none }
  | .success n => { s with numPages := n }

/-- Embeds `handleFileChange` (src/pages/index.tsx lines 69-80).  If a file is
selected and its declared type is `application/pdf`: set `loading`, set
`pdfFile`, clear the annotation list, run `loadPdf`, clear `loading`.
Otherwise only an alert is shown and the state is untouched. -/
def handleFileChange (s : AppState) (file : Option FileInfo)
    (outcome : LoadOutcome) : AppState :=
  match file with
  | some f =>
    if f.type = "application/pdf" then
      let s1 : AppState := { s with loading := true, pdfFile := some f, annots := [] }
      let s2 := loadPdf s1 outcome
      { s2 with loading := false }
    else
      s
  | none => s

/-- The bounding rectangle of a page's annotation container
(`getBoundingClientRect` in src/pages/index.tsx line 127). -/
structure Rect where
  left : ℚ
  top : ℚ
deriving DecidableEq, Repr

/-- Embeds `handlePageClick` (src/pages/index.tsx lines 126-144).  `rect` is the
container's bounding rect (`none` models a missing ref, an early return);
`targetInExisting` models `(event.target).closest('.annotation-text')`
being non-null, also an early return.  Otherwise a new annotation is built
with id `Date.now().toString()` (`now` is the clock reading), page-relative
offsets `clientX - rect.left` / `clientY - rect.top`, placeholder text and
medium size; it is appended and selected. -/
def handlePageClick (s : AppState) (pageIndex : Nat) (rect : Option Rect)
    (targetInExisting : Bool) (clientX clientY : ℚ) (now : Nat) : AppState :=
  match rect with
  | none => s
  | some r =>
    if targetInExisting then
      s
    else
      let newAnnot : Annot :=
        { id := toString now
          page := pageIndex
          x := clientX - r.left
          y := clientY - r.top
          text := "Type here..."
          fontSize := .medium }
      { s with annots := s.annots ++ [newAnnot]
               selectedAnnot := some newAnnot.id }

/-- Embeds `handleAnnotationChange` (src/pages/index.tsx lines 146-148):
`annotations.map(ann => ann.id === id ? { ...ann, text: newText } : ann)`. -/
def handleAnnotChange (s : AppState) (id newText : String) : AppState :=
  { s with annots :=
      s.annots.map fun ann => if ann.id = id then { ann with text := newText } else ann }

/-- Embeds `handleDeleteAnnotation` (src/pages/index.tsx lines 150-152):
`annotations.filter(ann => ann.id !== id)`; no other state is touched. -/
def handleDeleteAnnot (s : AppState) (id : String) : AppState :=
  { s with annots := s.annots.filter fun ann => ann.id ≠ id }

/-- Embeds `handleFontSizeChange` (src/pages/index.tsx lines 154-156):
`annotations.map(ann => ann.id === id ? { ...ann, fontSize: size } : ann)`. -/
def handleFontSizeChange (s : AppState) (id : String) (size : FontSize) : AppState :=
  { s with annots :=
      s.annots.map fun ann => if ann.id = id then { ann with fontSize := size } else ann }

/-- The per-page overlay query: `annotations.filter(ann => ann.page === index)`
(src/pages/index.tsx line 239). -/
def forPage (anns : List Annot) (pageIndex : Nat) : List Annot :=
  anns.filter fun ann => ann.page = pageIndex

/-- Embeds `fontSizeMap` (src/pages/index.tsx line 181):
`{ small: 10, medium: 14, large: 18 }`. -/
def fontSizeMap : FontSize → Nat
  | .small => 10
  | .medium => 14
  | .large => 18

/-- One `page.drawText` call recorded in the export document
(src/pages/index.tsx lines 188-194): position, text and point size
(the font is always Helvetica and the color always black). -/
structure DrawnText where
  x : ℚ
  y : ℚ
  text : String
  size : Nat
deriving DecidableEq, Repr

/-- A page of the pdf-lib document: its PDF-unit size and the text
objects drawn onto it. -/
structure Page where
  width : ℚ
  height : ℚ
  drawn : List DrawnText
deriving DecidableEq, Repr

/-- Embeds `page.drawText(...)`: appends a text object to the page. -/
def Page.drawText (p : Page) (t : DrawnText) : Page :=
  { p with drawn := p.drawn ++ [t] }

/-- The text object the export loop draws for annotation `ann` on a page
of PDF-unit height `pageHeight` (src/pages/index.tsx lines 185-194):
`const y = height - ann.y; page.drawText(ann.text, { x: ann.x, y, size: fontSizeMap[ann.fontSize] })`.
No division by `RENDER_SCALE` appears anywhere in the source. -/
def annotDraw (ann : Annot) (pageHeight : ℚ) : DrawnText :=
  { x := ann.x
    y := pageHeight - ann.y
    text := ann.text
    size := fontSizeMap ann.fontSize }

/-- The export loop `for (const ann of annotations)` (src/pages/index.tsx
lines 183-195).  `pages[ann.page]` with an out-of-range index is
`undefined` in JS, so `page.getSize()` throws a TypeError, which the
surrounding `try` converts into a failed export: modelled as
`Except.error ()`. -/
def drawAnnots (pages : List Page) : List Annot → Except Unit (List Page)
  | [] => .ok pages
  | ann :: rest =>
    match pages[ann.page]? with
    | none => .error ()
    | some page =>
      drawAnnots (pages.set ann.page (page.drawText (annotDraw ann page.height))) rest

/-- Embeds `exportPdf` (src/pages/index.tsx lines 166-214).  With no file loaded
it alerts and returns at once.  Otherwise it re-reads the original bytes
and hands them to pdf-lib: `decoded` is the result of `PDFDocument.load`
on that fresh copy, `embedFontOk` whether `embedFont` succeeds, `saveOk`
whether `pdfDoc.save()` succeeds.  Any failure lands in the `catch`
branch: an alert, no download.  On success the saved document (its final
page list) is offered as the download and `hasUnsavedChanges` is cleared;
`loading` is reset on both paths.  The component state's `pdfFile` bytes
and `annotations` are never written. -/
def exportPdf (s : AppState) (decoded : Except Unit (List Page))
    (embedFontOk saveOk : Bool) : AppState × Option (List Page) :=
  match s.pdfFile with
  | none => (s, none)
  | some _ =>
    let result : Except Unit (List Page) :=
      match decoded with
      | .error _ => .error ()
      | .ok pages =>
        if embedFontOk then
          match drawAnnots pages s.annots with
          | .error _ => .error ()
          | .ok pages1 => if saveOk then .ok pages1 else .error ()
        else
          .error ()
    match result with
    | .ok pages1 =>
      ({ s with hasUnsavedChanges := false, loading := false }, some pages1)
    | .error _ =>
      ({ s with loading := false }, none)

/-- The ways `exportPdf` can fail: no file loaded, `PDFDocument.load`
failing, `embedFont` failing, an annotation page index out of range during
the draw loop, or `save` failing. -/
def exportFails (s : AppState) (decoded : Except Unit (List Page))
    (embedFontOk saveOk : Bool) : Prop :=
  s.pdfFile = none ∨ decoded = .error () ∨ embedFontOk = false ∨ saveOk = false ∨
    (∃ pages, decoded = .ok pages ∧ drawAnnots pages s.annots = .error ())

end PdfEdit

namespace PdfEdit

/-- A concrete annotation for exercising the export transform: placed by a
click at screen offset (150, 150) on page 0 of a document rendered at the
fixed 1.5 display scale. -/
def c1Ann : Annot :=
  { id := "1", page := 0, x := 150, y := 150, text := "hello", fontSize := .medium }

/-- C1: the export transform does compute `pdfX = a.x` and
`pdfY = pdfHeight - a.y`, but contrary to the claim it never divides the
screen coordinates by the render pipeline's fixed scale (1.5) first: for
the annotation at screen (150, 150) on a page of PDF height 800 it draws
at (150, 650), not at the scale-corrected (100, 700).  The transform
silently assumes scale = 1. -/
theorem annotDraw_ignores_render_scale :
    (annotDraw c1Ann 800).x = c1Ann.x ∧
    (annotDraw c1Ann 800).y = 800 - c1Ann.y ∧
    RENDER_SCALE ≠ 1 ∧
    (annotDraw c1Ann 800).x = 150 ∧
    (annotDraw c1Ann 800).y = 650 ∧
    (annotDraw c1Ann 800).x ≠ c1Ann.x / RENDER_SCALE ∧
    (annotDraw c1Ann 800).y ≠ 800 - c1Ann.y / RENDER_SCALE := by
  simp only [annotDraw, c1Ann, RENDER_SCALE]
  norm_num

/-- An annotation clicked at the very top edge of the rendered pixel
surface (screen y = 0). -/
def c2AnnTop : Annot :=
  { id := "t", page := 0, x := 0, y := 0, text := "top", fontSize := .small }

/-- An annotation clicked at the very bottom edge of the rendered pixel
surface of a page of PDF height 800: screen y = H = 1.5 * 800 = 1200. -/
def c2AnnBottom : Annot :=
  { id := "b", page := 0, x := 0, y := viewportHeight 800, text := "bottom", fontSize := .small }

/-- C2: for a page of PDF height 800 the rendered pixel surface has height
H = 1200, but an annotation at screen y = 0 exports to PDF y = 800 (the
PDF-unit height, not H), and one at screen y = H exports to PDF y = -400
(off the page, not 0): the claimed y=0 ↦ H and y=H ↦ 0 endpoints fail
because the code never divides by the 1.5 render scale.  (The mapping
y ↦ 800 - y is itself strictly decreasing, so only the endpoint clauses
fail.) -/
theorem annotDraw_surface_edges_mismatch :
    viewportHeight 800 = 1200 ∧
    (annotDraw c2AnnTop 800).y = 800 ∧
    (annotDraw c2AnnTop 800).y ≠ viewportHeight 800 ∧
    (annotDraw c2AnnBottom 800).y = -400 ∧
    (annotDraw c2AnnBottom 800).y ≠ 0 := by
  simp only [annotDraw, c2AnnTop, c2AnnBottom, viewportHeight, RENDER_SCALE]
  norm_num

/-- A one-page export document of PDF size 600 x 800 with nothing drawn. -/
def c3Page : Page := { width := 600, height := 800, drawn := [] }

/-- An annotation whose page index 0 resolves on a one-page document. -/
def c3AnnOk : Annot :=
  { id := "a0", page := 0, x := 10, y := 20, text := "ok", fontSize := .medium }

/-- An annotation whose page index 5 is out of range for a one-page
document (e.g. restored from persistence for a previously open, larger
document). -/
def c3AnnBad : Annot :=
  { id := "a1", page := 5, x := 10, y := 20, text := "stale", fontSize := .medium }

/-- A loaded state holding both annotations. -/
def c3State : AppState :=
  { pdfFile := some { type := "application/pdf", bytes := [37, 80, 68, 70] }
    numPages := 1
    annots := [c3AnnOk, c3AnnBad]
    selectedAnnot := none
    loading := false
    hasUnsavedChanges := true }

/-- C3: exporting into a one-page document with one in-range annotation
and one out-of-range annotation does not skip the bad one: the draw loop
throws at `pages[5].getSize()`, the whole export aborts, and no download
is produced — the in-range annotation is not written either.  The final
state is the input state with only `loading` reset. -/
theorem exportPdf_aborts_on_out_of_range_page :
    drawAnnots [c3Page] [c3AnnOk, c3AnnBad] = .error () ∧
    (exportPdf c3State (.ok [c3Page]) true true).2 = none ∧
    (exportPdf c3State (.ok [c3Page]) true true).1 = { c3State with loading := false } := by
  refine ⟨rfl, rfl, rfl⟩

end PdfEdit

namespace PdfEdit

/-- C4: export is read-only on the component state's document and
annotations — whatever the outcome of the external load/embed/draw/save
steps, the resulting state keeps the originally loaded file bytes, the
annotation list, the selection and the page count unchanged; and whenever
any step fails, no download is produced. -/
theorem exportPdf_frame (s : AppState) (decoded : Except Unit (List Page))
    (embedFontOk saveOk : Bool) :
    (exportPdf s decoded embedFontOk saveOk).1.pdfFile = s.pdfFile ∧
    (exportPdf s decoded embedFontOk saveOk).1.annots = s.annots ∧
    (exportPdf s decoded embedFontOk saveOk).1.selectedAnnot = s.selectedAnnot ∧
    (exportPdf s decoded embedFontOk saveOk).1.numPages = s.numPages ∧
    (exportFails s decoded embedFontOk saveOk →
      (exportPdf s decoded embedFontOk saveOk).2 = none) := by
  cases hpf : s.pdfFile with
  | none => simp [exportPdf, hpf]
  | some f =>
    cases decoded with
    | error e => simp [exportPdf, hpf]
    | ok pages =>
      cases embedFontOk with
      | false => simp [exportPdf, hpf]
      | true =>
        cases hd : drawAnnots pages s.annots with
        | error e => simp [exportPdf, hpf, hd]
        | ok pages1 =>
          cases saveOk with
          | false => simp [exportPdf, hpf, hd]
          | true =>
            refine ⟨by simp [exportPdf, hpf, hd], by simp [exportPdf, hpf, hd],
              by simp [exportPdf, hpf, hd], by simp [exportPdf, hpf, hd], ?_⟩
            intro hfail
            rcases hfail with h | h | h | h | ⟨pages2, hp2, herr⟩
            · exact absurd (hpf ▸ h) (by simp)
            · exact absurd h (by simp)
            · exact absurd h (by simp)
            · exact absurd h (by simp)
            · rw [Except.ok.injEq] at hp2
              rw [← hp2] at herr
              rw [hd] at herr
              exact absurd herr (by simp)

/-- Witness for C4 at a concrete input: with no file loaded the export
fails and produces no download. -/
theorem exportPdf_frame_witness :
    (exportPdf initialState (Except.error ()) true true).2 = none :=
  (exportPdf_frame initialState (Except.error ()) true true).2.2.2.2 (Or.inl rfl)

/-- A concrete annotation with id "100", currently selected. -/
def c5Ann : Annot :=
  { id := "100", page := 0, x := 5, y := 6, text := "note", fontSize := .large }

/-- A loaded state in which annotation "100" exists and is selected. -/
def c5State : AppState :=
  { pdfFile := some { type := "application/pdf", bytes := [1] }
    numPages := 1
    annots := [c5Ann]
    selectedAnnot := some "100"
    loading := false
    hasUnsavedChanges := true }

/-- C5 counterexample: deleting the currently selected annotation "100"
removes it from the list but leaves the selection pointer still holding
"100" — the claim that the selection is cleared is false on the code
(`handleDeleteAnnotation` only filters the list and never touches
`selectedAnnotation`). -/
theorem handleDeleteAnnot_keeps_selection :
    (handleDeleteAnnot c5State "100").annots = [] ∧
    c5State.selectedAnnot = some "100" ∧
    (handleDeleteAnnot c5State "100").selectedAnnot = some "100" ∧
    (handleDeleteAnnot c5State "100").selectedAnnot ≠ none := by
  refine ⟨rfl, rfl, rfl, by simp [handleDeleteAnnot, c5State]⟩

/-- C5 amended: `remove(id)` keeps exactly the annotations whose id
differs from `id`, never throws, and is a no-op on an unknown id; the
selection pointer is always left unchanged — in particular it is not
cleared when the removed annotation was the selected one (its editing
chrome disappears only because the annotation itself is gone). -/
theorem handleDeleteAnnot_spec (s : AppState) (id : String) :
    (∀ a : Annot, a ∈ (handleDeleteAnnot s id).annots ↔ a ∈ s.annots ∧ a.id ≠ id) ∧
    (handleDeleteAnnot s id).selectedAnnot = s.selectedAnnot ∧
    ((∀ a ∈ s.annots, a.id ≠ id) → handleDeleteAnnot s id = s) := by
  refine ⟨?_, rfl, ?_⟩
  · intro a
    simp [handleDeleteAnnot, List.mem_filter]
  · intro h
    unfold handleDeleteAnnot
    rw [List.filter_eq_self.mpr]
    intro a ha
    simpa using h a ha

/-- Witness for C5's amended theorem at a concrete input: removing an id
present on no annotation leaves the state exactly as it was. -/
theorem handleDeleteAnnot_spec_witness :
    handleDeleteAnnot c5State "nope" = c5State :=
  (handleDeleteAnnot_spec c5State "nope").2.2 (by
    intro a ha
    simp [c5State, c5Ann] at ha
    simp [ha, c5Ann])

end PdfEdit

namespace PdfEdit

/-- A PDF-typed file selection used for the load-failure scenario. -/
def c6File : FileInfo := { type := "application/pdf", bytes := [37, 80, 68, 70] }

/-- C6 counterexample: from the initial state, selecting a PDF-typed file
whose decode reports 3 pages and whose per-page render then fails leaves
`pdfFile = none` but `numPages = 3`: the partially-set document state is
not all cleared on a load failure (`loadPdf`'s catch only does
`setPdfFile(null)`, never resetting `numPages`). -/
theorem handleFileChange_renderError_keeps_numPages :
    (handleFileChange initialState (some c6File) (.renderError 3)).pdfFile = none ∧
    (handleFileChange initialState (some c6File) (.renderError 3)).numPages = 3 ∧
    initialState.numPages = 0 ∧
    (handleFileChange initialState (some c6File) (.renderError 3)).numPages ≠ 0 := by
  refine ⟨rfl, rfl, rfl, by simp [handleFileChange, c6File, loadPdf]⟩

/-- C6 amended: on any load failure the file reference is cleared
(`pdfFile = none`), so no document is considered loaded or rendered — but
`numPages` is not reset and may keep a partially-set value; and selecting
a file whose declared type is not `application/pdf` takes the rejection
path before any decode attempt and changes no state at all. -/
theorem handleFileChange_failure_spec (s : AppState) (f : FileInfo)
    (outcome : LoadOutcome) :
    (outcome.isFailure = true → f.type = "application/pdf" →
      (handleFileChange s (some f) outcome).pdfFile = none) ∧
    (f.type ≠ "application/pdf" → handleFileChange s (some f) outcome = s) := by
  constructor
  · intro hfail htype
    cases outcome with
    | readError => simp [handleFileChange, htype, loadPdf]
    | decodeError => simp [handleFileChange, htype, loadPdf]
    | renderError n => simp [handleFileChange, htype, loadPdf]
    | success n => simp [LoadOutcome.isFailure] at hfail
  · intro htype
    simp [handleFileChange, htype]

/-- Witness for C6's amended theorem at a concrete input: a decode error
on a PDF-typed file ends with no file considered loaded. -/
theorem handleFileChange_failure_spec_witness :
    (handleFileChange initialState (some c6File) LoadOutcome.decodeError).pdfFile = none :=
  (handleFileChange_failure_spec initialState c6File .decodeError).1 rfl rfl

/-- A page container rect at the viewport origin. -/
def c7Rect : Rect := { left := 0, top := 0 }

/-- State after a first click on page 0 at clock reading 1000. -/
def c7State1 : AppState :=
  handlePageClick initialState 0 (some c7Rect) false 100 50 1000

/-- State after a second click on page 0 during the same millisecond
(clock reading still 1000). -/
def c7State2 : AppState :=
  handlePageClick c7State1 0 (some c7Rect) false 200 80 1000

/-- C7 counterexample: two placements during the same millisecond both get
id `Date.now().toString() = "1000"` — the second annotation's id already
names the first one, so the id of a newly placed annotation is not always
fresh and ids are not unique. -/
theorem handlePageClick_id_collision :
    c7State2.annots.map (fun a => a.id) = ["1000", "1000"] ∧
    ¬ (c7State2.annots.map (fun a => a.id)).Nodup := by
  refine ⟨rfl, by decide⟩

/-- C7 amended: provided the clock reading (as a string) does not already
name an existing annotation, `place` appends exactly one new annotation —
fresh timestamp id, the click's page-relative offsets, placeholder text
"Type here...", medium size — and selects it; and on a previously empty
page, `forPage` right after returns exactly that annotation.  (Without the
freshness proviso two same-millisecond placements collide, as the
counterexample shows.) -/
theorem handlePageClick_place_spec (s : AppState) (p : Nat) (r : Rect)
    (cx cy : ℚ) (now : Nat)
    (hfresh : toString now ∉ s.annots.map (fun a => a.id))
    (hempty : forPage s.annots p = []) :
    ∃ a : Annot,
      (handlePageClick s p (some r) false cx cy now).annots = s.annots ++ [a] ∧
      a.id = toString now ∧
      a.id ∉ s.annots.map (fun b => b.id) ∧
      a.page = p ∧ a.x = cx - r.left ∧ a.y = cy - r.top ∧
      a.text = "Type here..." ∧ a.fontSize = .medium ∧
      (handlePageClick s p (some r) false cx cy now).selectedAnnot = some a.id ∧
      forPage (handlePageClick s p (some r) false cx cy now).annots p = [a] := by
  refine ⟨_, rfl, rfl, hfresh, rfl, rfl, rfl, rfl, rfl, rfl, ?_⟩
  unfold forPage at hempty ⊢
  show List.filter _ (s.annots ++ [_]) = _
  rw [List.filter_append, hempty]
  simp

/-- Witness for C7's amended theorem: the first click of the collision
scenario, from the empty initial state, satisfies both provisos. -/
theorem handlePageClick_place_spec_witness :
    ∃ a : Annot,
      (handlePageClick initialState 0 (some c7Rect) false 100 50 1000).annots =
        initialState.annots ++ [a] ∧
      a.id = toString 1000 ∧
      a.id ∉ initialState.annots.map (fun b => b.id) ∧
      a.page = 0 ∧ a.x = 100 - c7Rect.left ∧ a.y = 50 - c7Rect.top ∧
      a.text = "Type here..." ∧ a.fontSize = .medium ∧
      (handlePageClick initialState 0 (some c7Rect) false 100 50 1000).selectedAnnot =
        some a.id ∧
      forPage (handlePageClick initialState 0 (some c7Rect) false 100 50 1000).annots 0 =
        [a] :=
  handlePageClick_place_spec initialState 0 c7Rect 100 50 1000 (by simp [initialState]) rfl

end PdfEdit

namespace PdfEdit

/-- Mapping a function that fixes every member of a list is the identity
(shared helper for the unknown-id no-op clauses). -/
theorem map_fix_of_mem {α : Type} (l : List α) (f : α → α)
    (h : ∀ a ∈ l, f a = a) : l.map f = l := by
  induction l with
  | nil => rfl
  | cons a t ih =>
    simp only [List.map_cons]
    rw [h a (by simp), ih fun b hb => h b (by simp [hb])]

/-- C8: the font-size table is total and fixed — small ↦ 10, medium ↦ 14,
large ↦ 18, every enum value landing in {10, 14, 18} — and the export draw
for an annotation reads its font size at export time: after
`handleFontSizeChange` sets an annotation's size, the text object drawn
for it carries the new size's point value, not the one at creation. -/
theorem fontSizeMap_total_and_export_time :
    (fontSizeMap .small = 10 ∧ fontSizeMap .medium = 14 ∧ fontSizeMap .large = 18) ∧
    (∀ fs : FontSize, fontSizeMap fs = 10 ∨ fontSizeMap fs = 14 ∨ fontSizeMap fs = 18) ∧
    (∀ (s : AppState) (id : String) (size : FontSize) (b : Annot) (h : ℚ),
      b ∈ (handleFontSizeChange s id size).annots → b.id = id →
      (annotDraw b h).size = fontSizeMap size) := by
  refine ⟨⟨rfl, rfl, rfl⟩, ?_, ?_⟩
  · intro fs
    cases fs
    · exact Or.inl rfl
    · exact Or.inr (Or.inl rfl)
    · exact Or.inr (Or.inr rfl)
  · intro s id size b h hb hid
    rcases List.mem_map.mp hb with ⟨a, _, hba⟩
    by_cases hcase : a.id = id
    · rw [if_pos hcase] at hba
      rw [← hba]
      rfl
    · rw [if_neg hcase] at hba
      rw [← hba] at hid
      exact absurd hid hcase

/-- A one-element annotation state for exercising the model operations. -/
def c8Ann : Annot :=
  { id := "z", page := 0, x := 1, y := 2, text := "t", fontSize := .small }

/-- A state holding just the annotation "z". -/
def c8State : AppState := { initialState with annots := [c8Ann] }

/-- Witness for C8 at a concrete input: growing annotation "z" from small
to large and drawing it at export uses point size 18 = fontSizeMap large. -/
theorem fontSizeMap_total_and_export_time_witness :
    (annotDraw { c8Ann with fontSize := FontSize.large } 800).size = fontSizeMap .large :=
  fontSizeMap_total_and_export_time.2.2 c8State "z" .large
    { c8Ann with fontSize := FontSize.large } 800
    (by simp [handleFontSizeChange, c8State, c8Ann]) rfl

/-- C9: `updateText` and `updateFontSize` are frame-exact — lengths are
preserved; position-wise, the annotation at each index keeps its id, page,
coordinates and (for `updateText`) font size / (for `updateFontSize`)
text; an unmatched annotation is entirely unchanged, the matched one gets
exactly the new text resp. size; the selection is untouched; and with an
unknown id both operations are complete no-ops on the state. -/
theorem updateText_updateFontSize_frame (s : AppState) (id txt : String)
    (size : FontSize) :
    ((handleAnnotChange s id txt).annots.length = s.annots.length ∧
     ∀ (i : Nat) (a b : Annot), s.annots[i]? = some a →
        (handleAnnotChange s id txt).annots[i]? = some b →
        b.id = a.id ∧ b.page = a.page ∧ b.x = a.x ∧ b.y = a.y ∧
        b.fontSize = a.fontSize ∧
        (a.id = id → b.text = txt) ∧ (a.id ≠ id → b = a)) ∧
    ((handleFontSizeChange s id size).annots.length = s.annots.length ∧
     ∀ (i : Nat) (a b : Annot), s.annots[i]? = some a →
        (handleFontSizeChange s id size).annots[i]? = some b →
        b.id = a.id ∧ b.page = a.page ∧ b.x = a.x ∧ b.y = a.y ∧
        b.text = a.text ∧
        (a.id = id → b.fontSize = size) ∧ (a.id ≠ id → b = a)) ∧
    (handleAnnotChange s id txt).selectedAnnot = s.selectedAnnot ∧
    (handleFontSizeChange s id size).selectedAnnot = s.selectedAnnot ∧
    ((∀ a ∈ s.annots, a.id ≠ id) →
      handleAnnotChange s id txt = s ∧ handleFontSizeChange s id size = s) := by
  refine ⟨⟨List.length_map _ _, ?_⟩, ⟨List.length_map _ _, ?_⟩, rfl, rfl, ?_⟩
  · intro i a b ha hb
    rw [show (handleAnnotChange s id txt).annots =
          s.annots.map (fun ann => if ann.id = id then { ann with text := txt } else ann)
        from rfl, List.getElem?_map, ha, Option.map_some'] at hb
    rw [Option.some.injEq] at hb
    by_cases hcase : a.id = id
    · rw [if_pos hcase] at hb
      rw [← hb]
      exact ⟨rfl, rfl, rfl, rfl, rfl, fun _ => rfl, fun hne => absurd hcase hne⟩
    · rw [if_neg hcase] at hb
      rw [← hb]
      exact ⟨rfl, rfl, rfl, rfl, rfl, fun heq => absurd heq hcase, fun _ => rfl⟩
  · intro i a b ha hb
    rw [show (handleFontSizeChange s id size).annots =
          s.annots.map (fun ann => if ann.id = id then { ann with fontSize := size } else ann)
        from rfl, List.getElem?_map, ha, Option.map_some'] at hb
    rw [Option.some.injEq] at hb
    by_cases hcase : a.id = id
    · rw [if_pos hcase] at hb
      rw [← hb]
      exact ⟨rfl, rfl, rfl, rfl, rfl, fun _ => rfl, fun hne => absurd hcase hne⟩
    · rw [if_neg hcase] at hb
      rw [← hb]
      exact ⟨rfl, rfl, rfl, rfl, rfl, fun heq => absurd heq hcase, fun _ => rfl⟩
  · intro h
    constructor
    · unfold handleAnnotChange
      rw [map_fix_of_mem]
      intro a ha
      rw [if_neg (h a ha)]
    · unfold handleFontSizeChange
      rw [map_fix_of_mem]
      intro a ha
      rw [if_neg (h a ha)]

/-- Witness for C9 at a concrete input: updating text and size under an id
carried by no annotation leaves the state exactly as it was. -/
theorem updateText_updateFontSize_frame_witness :
    handleAnnotChange c8State "unknown" "x" = c8State ∧
    handleFontSizeChange c8State "unknown" FontSize.small = c8State :=
  (updateText_updateFontSize_frame c8State "unknown" "x" .small).2.2.2.2 (by
    intro a ha
    simp [c8State, c8Ann] at ha
    simp [ha, c8Ann])

/-- A PDF-typed file for the reload scenario. -/
def c10File : FileInfo := { type := "application/pdf", bytes := [9, 9] }

/-- C10: selecting a new valid PDF file empties the annotation list before
the document loads — whatever the load outcome — so no page overlay
(`forPage`) can show an annotation from the previous document; the
selection pointer, however, is carried over unchanged by the file change. -/
theorem handleFileChange_resets_annots (s : AppState) (f : FileInfo)
    (outcome : LoadOutcome) (htype : f.type = "application/pdf") :
    (handleFileChange s (some f) outcome).annots = [] ∧
    (handleFileChange s (some f) outcome).selectedAnnot = s.selectedAnnot ∧
    ∀ p : Nat, forPage (handleFileChange s (some f) outcome).annots p = [] := by
  cases outcome with
  | readError => exact ⟨by simp [handleFileChange, htype, loadPdf],
      by simp [handleFileChange, htype, loadPdf],
      fun p => by simp [handleFileChange, htype, loadPdf, forPage]⟩
  | decodeError => exact ⟨by simp [handleFileChange, htype, loadPdf],
      by simp [handleFileChange, htype, loadPdf],
      fun p => by simp [handleFileChange, htype, loadPdf, forPage]⟩
  | renderError n => exact ⟨by simp [handleFileChange, htype, loadPdf],
      by simp [handleFileChange, htype, loadPdf],
      fun p => by simp [handleFileChange, htype, loadPdf, forPage]⟩
  | success n => exact ⟨by simp [handleFileChange, htype, loadPdf],
      by simp [handleFileChange, htype, loadPdf],
      fun p => by simp [handleFileChange, htype, loadPdf, forPage]⟩

/-- Witness for C10 at a concrete input: a successful 2-page load starting
from a state with an old annotation and a live selection. -/
theorem handleFileChange_resets_annots_witness :
    (handleFileChange { c8State with selectedAnnot := some "z" } (some c10File)
        (.success 2)).annots = [] ∧
    (handleFileChange { c8State with selectedAnnot := some "z" } (some c10File)
        (.success 2)).selectedAnnot = some "z" :=
  ⟨(handleFileChange_resets_annots { c8State with selectedAnnot := some "z" }
      c10File (.success 2) rfl).1,
   (handleFileChange_resets_annots { c8State with selectedAnnot := some "z" }
      c10File (.success 2) rfl).2.1⟩

end PdfEdit
